import Mathlib

/-!
Shallow embedding of the Attio MCP server (src/mcp_servers/attio/index.ts).

The server exposes nine CRM tools over two HTTP transports.  We model:
  * JSON values (`JValue`) and the behaviour of JSON.stringify, both compact
    (used for outbound request bodies) and pretty with a 2-space indent
    (used for tool-result content blocks);
  * the `AttioClient` backend adapter and its methods, with the outbound
    fetch effect represented by an explicit `FetchFn` parameter and the list
    of HTTP requests issued returned alongside the result;
  * the CallTool dispatcher (the big switch with its try/catch);
  * the transport layer: POST /mcp (streamable HTTP), GET /sse and
    POST /messages (deprecated SSE transport), the session map, and the
    AsyncLocalStorage request context.  Object identity of freshly
    constructed `AttioClient` instances is modelled by an allocation
    counter (`allocId`).
-/

/-- JSON values as delivered by JSON.parse: no undefined, `null` is a value. -/
inductive JValue where
  | null : JValue
  | bool : Bool → JValue
  | num : Int → JValue
  | str : String → JValue
  | arr : List JValue → JValue
  | obj : List (String × JValue) → JValue

/-- Hex digit for escape sequences produced by JSON.stringify. -/
def hexDigit (n : Nat) : Char :=
  if n < 10 then Char.ofNat (48 + n) else Char.ofNat (87 + n)

/-- Four-digit lowercase hex, as in the \u00XX escapes of JSON.stringify. -/
def hex4 (n : Nat) : String :=
  String.mk [hexDigit (n / 4096 % 16), hexDigit (n / 256 % 16),
             hexDigit (n / 16 % 16), hexDigit (n % 16)]

/-- Escaping of one character inside a JSON string literal
(JSON.stringify semantics). -/
def escapeJsonChar (c : Char) : String :=
  if c = '"' then "\\\""
  else if c = '\\' then "\\\\"
  else if c = '\n' then "\\n"
  else if c = '\r' then "\\r"
  else if c = '\t' then "\\t"
  else if c = Char.ofNat 8 then "\\b"
  else if c = Char.ofNat 12 then "\\f"
  else if c.toNat < 32 then "\\u" ++ hex4 c.toNat
  else String.mk [c]

/-- JSON string-literal escaping. -/
def escapeJsonString (s : String) : String :=
  String.join (s.toList.map escapeJsonChar)

mutual

/-- Compact JSON.stringify(v): no spaces, keys in insertion order. -/
def jsonStringify : JValue → String
  | .null => "null"
  | .bool true => "true"
  | .bool false => "false"
  | .num n => toString n
  | .str s => "\"" ++ escapeJsonString s ++ "\""
  | .arr xs => "[" ++ jsonStringifyList xs ++ "]"
  | .obj fs => "\x7b" ++ jsonStringifyFields fs ++ "\x7d"

def jsonStringifyList : List JValue → String
  | [] => ""
  | [x] => jsonStringify x
  | x :: y :: rest => jsonStringify x ++ "," ++ jsonStringifyList (y :: rest)

def jsonStringifyFields : List (String × JValue) → String
  | [] => ""
  | [(k, v)] => "\"" ++ escapeJsonString k ++ "\":" ++ jsonStringify v
  | (k, v) :: p :: rest =>
      "\"" ++ escapeJsonString k ++ "\":" ++ jsonStringify v ++ "," ++
        jsonStringifyFields (p :: rest)

end

/-- Indentation of n spaces. -/
def jsonPad (n : Nat) : String :=
  String.mk (List.replicate n ' ')

mutual

/-- JSON.stringify(v, null, 2): pretty printing with a two-space indent.
`ind` is the current indentation level in spaces (0 at the top). -/
def jsonStringifyPretty (ind : Nat) : JValue → String
  | .null => "null"
  | .bool true => "true"
  | .bool false => "false"
  | .num n => toString n
  | .str s => "\"" ++ escapeJsonString s ++ "\""
  | .arr [] => "[]"
  | .arr (x :: xs) =>
      "[\n" ++ jsonPrettyList (ind + 2) (x :: xs) ++ "\n" ++ jsonPad ind ++ "]"
  | .obj [] => "\x7b\x7d"
  | .obj (f :: fs) =>
      "\x7b\n" ++ jsonPrettyFields (ind + 2) (f :: fs) ++ "\n" ++ jsonPad ind ++ "\x7d"

def jsonPrettyList (ind : Nat) : List JValue → String
  | [] => ""
  | [x] => jsonPad ind ++ jsonStringifyPretty ind x
  | x :: y :: rest =>
      jsonPad ind ++ jsonStringifyPretty ind x ++ ",\n" ++ jsonPrettyList ind (y :: rest)

def jsonPrettyFields (ind : Nat) : List (String × JValue) → String
  | [] => ""
  | [(k, v)] =>
      jsonPad ind ++ "\"" ++ escapeJsonString k ++ "\": " ++ jsonStringifyPretty ind v
  | (k, v) :: p :: rest =>
      jsonPad ind ++ "\"" ++ escapeJsonString k ++ "\": " ++ jsonStringifyPretty ind v ++
        ",\n" ++ jsonPrettyFields ind (p :: rest)

end

/-- JS String.prototype.trim: strip whitespace from both ends (modelled
over the whitespace characters Lean recognises; structurally recursive so
that it evaluates inside the kernel). -/
def jsTrim (s : String) : String :=
  String.mk (((s.toList.dropWhile Char.isWhitespace).reverse.dropWhile
    Char.isWhitespace).reverse)

/-- Does `needle` start `hay`? (char-list helper for strIncludes). -/
def charsLeading : List Char → List Char → Bool
  | [], _ => true
  | _ :: _, [] => false
  | a :: as, b :: bs => a == b && charsLeading as bs

/-- Does `needle` occur inside `hay`? (char-list helper for strIncludes). -/
def charsInfix (needle : List Char) : List Char → Bool
  | [] => charsLeading needle []
  | b :: bs => charsLeading needle (b :: bs) || charsInfix needle bs

/-- JS String.prototype.includes: does `needle` occur in `hay`?
(The empty needle always occurs.) -/
def strIncludes (hay needle : String) : Bool :=
  charsInfix needle.toList hay.toList

/-- JS String.prototype.toLowerCase, modelled character-wise. -/
def jsToLower (s : String) : String :=
  String.mk (s.toList.map Char.toLower)

/-- const ATTIO_API_URL = https api.attio.com slash v2. -/
def ATTIO_API_URL : String := "https://api.attio.com/v2"

/-- One outbound HTTP request as assembled by AttioClient.makeRequest:
the URL, method, the Authorization bearer token, and the serialized body
(none for GET requests issued without a body). -/
structure HttpRequest where
  url : String
  method : String
  authBearer : String
  body : Option String
deriving DecidableEq, Repr

/-- The response the global fetch resolves with, after the code reads the
pieces it needs: ok/status/statusText, the text read on error, and the
parsed json read on success. -/
structure FetchResponse where
  ok : Bool
  status : Nat
  statusText : String
  errorText : String
  json : JValue

/-- The ambient fetch effect: what the network answers for each request. -/
def FetchFn : Type := HttpRequest → FetchResponse

/-- class AttioClient.  `allocId` has no counterpart field in the source: it
models JS object identity of each `new AttioClient(...)` allocation, so that
freshness and non-reuse of adapter instances can be stated. -/
structure AttioClient where
  apiKey : String
  baseUrl : String := ATTIO_API_URL
  allocId : Nat := 0

/-- AttioClient.makeRequest: build the URL and headers, fetch, and on a
non-ok response throw `Attio API error: status statusText - text`; on an ok
response return the parsed JSON.  The request issued is returned in the
trace component. -/
def AttioClient.makeRequest (c : AttioClient) (fetch : FetchFn)
    (endpoint : String) (method : String) (body : Option String) :
    List HttpRequest × Except String JValue :=
  let req : HttpRequest :=
    { url := c.baseUrl ++ endpoint, method := method,
      authBearer := c.apiKey, body := body }
  let resp := fetch req
  ([req],
    if resp.ok then .ok resp.json
    else .error ("Attio API error: " ++ toString resp.status ++ " " ++
      resp.statusText ++ " - " ++ resp.errorText))

/-- AttioClient.searchPeople: POST /objects/people/records/query with
body having only limit when the filters object is empty, filter and limit
otherwise. -/
def AttioClient.searchPeople (c : AttioClient) (fetch : FetchFn)
    (filters : List (String × JValue)) (limit : Int) :
    List HttpRequest × Except String JValue :=
  if filters.length = 0 then
    c.makeRequest fetch "/objects/people/records/query" "POST"
      (some (jsonStringify (.obj [("limit", .num limit)])))
  else
    c.makeRequest fetch "/objects/people/records/query" "POST"
      (some (jsonStringify (.obj [("filter", .obj filters), ("limit", .num limit)])))

/-- AttioClient.searchCompanies: analogous to searchPeople. -/
def AttioClient.searchCompanies (c : AttioClient) (fetch : FetchFn)
    (filters : List (String × JValue)) (limit : Int) :
    List HttpRequest × Except String JValue :=
  if filters.length = 0 then
    c.makeRequest fetch "/objects/companies/records/query" "POST"
      (some (jsonStringify (.obj [("limit", .num limit)])))
  else
    c.makeRequest fetch "/objects/companies/records/query" "POST"
      (some (jsonStringify (.obj [("filter", .obj filters), ("limit", .num limit)])))

/-- AttioClient.searchDeals: analogous to searchPeople. -/
def AttioClient.searchDeals (c : AttioClient) (fetch : FetchFn)
    (filters : List (String × JValue)) (limit : Int) :
    List HttpRequest × Except String JValue :=
  if filters.length = 0 then
    c.makeRequest fetch "/objects/deals/records/query" "POST"
      (some (jsonStringify (.obj [("limit", .num limit)])))
  else
    c.makeRequest fetch "/objects/deals/records/query" "POST"
      (some (jsonStringify (.obj [("filter", .obj filters), ("limit", .num limit)])))

/-- JS property access `v.k`: throws a TypeError when `v` is null, yields
the property value when `v` is an object that has it, and undefined
(modelled as `none`) otherwise (missing key, or a primitive / array). -/
def jsGetProp (v : JValue) (k : String) : Except String (Option JValue) :=
  match v with
  | .null => .error ("Cannot read properties of null (reading " ++ k ++ ")")
  | .obj fs => .ok (List.lookup k fs)
  | _ => .ok none

/-- One conjunct of the note filter: `typeof note.k === string` and the
lower-cased field includes the lower-cased query. -/
def noteFieldMatch (queryLower : String) (note : JValue) (k : String) :
    Except String Bool := do
  let v ← jsGetProp note k
  pure (match v with
        | some (.str s) => strIncludes (jsToLower s) queryLower
        | _ => false)

/-- The filter callback of searchNotes: titleMatch, contentPlaintextMatch
and contentMarkdownMatch are each computed (in source order), then ORed. -/
def noteMatches (queryLower : String) (note : JValue) : Except String Bool := do
  let t ← noteFieldMatch queryLower note "title"
  let p ← noteFieldMatch queryLower note "content_plaintext"
  let m ← noteFieldMatch queryLower note "content_markdown"
  pure (t || p || m)

/-- Array.prototype.filter with a callback that may throw: elements are
visited in order and a thrown error aborts the traversal. -/
def filterEx (p : JValue → Except String Bool) : List JValue → Except String (List JValue)
  | [] => .ok []
  | x :: xs => do
    let b ← p x
    let rest ← filterEx p xs
    pure (if b then x :: rest else rest)

/-- The type guard of searchNotes: the raw response must be an object with
an array-valued data member; on success yields the field list and the data
items. -/
def dataArrayOf (raw : JValue) : Option (List (String × JValue) × List JValue) :=
  match raw with
  | .obj fs =>
    match List.lookup "data" fs with
    | some (.arr xs) => some (fs, xs)
    | _ => none
  | _ => none

/-- The object spread of searchNotes, writing the filtered
list over the data member while keeping every other member: all members of
allNotes in their original positions, with data overridden. -/
def setData (fs : List (String × JValue)) (items : List JValue) :
    List (String × JValue) :=
  fs.map (fun p => if p.1 = "data" then (p.1, .arr items) else p)

/-- AttioClient.searchNotes: one unfiltered GET of up to `limit` notes, a
type guard defaulting to an empty listing, then — unless the query is
absent or blank — client-side filtering of the fetched page. -/
def AttioClient.searchNotes (c : AttioClient) (fetch : FetchFn)
    (query : String) (limit : Int) : List HttpRequest × Except String JValue :=
  let (reqs, res) := c.makeRequest fetch ("/notes?limit=" ++ toString limit) "GET" none
  match res with
  | .error e => (reqs, .error e)
  | .ok raw =>
    let allNotes : List (String × JValue) × List JValue :=
      match dataArrayOf raw with
      | some fsItems => fsItems
      | none => ([("data", .arr [])], [])
    if query = "" || jsTrim query = "" then
      (reqs, .ok (.obj allNotes.1))
    else
      match filterEx (noteMatches (jsToLower query)) allNotes.2 with
      | .error e => (reqs, .error e)
      | .ok filtered => (reqs, .ok (.obj (setData allNotes.1 filtered)))

/-- The createNote payload assembled by the dispatcher before calling
AttioClient.createNote. -/
structure NoteData where
  parent_object : String
  parent_record_id : String
  title : String
  content : String
  format : String

/-- AttioClient.createNote: POST /notes with the note payload; the format
member falls back to plaintext when the given format string is falsy
(empty). -/
def AttioClient.createNote (c : AttioClient) (fetch : FetchFn) (d : NoteData) :
    List HttpRequest × Except String JValue :=
  c.makeRequest fetch "/notes" "POST"
    (some (jsonStringify (.obj [("data", .obj
      [("parent_object", .str d.parent_object),
       ("parent_record_id", .str d.parent_record_id),
       ("title", .str d.title),
       ("format", .str (if d.format = "" then "plaintext" else d.format)),
       ("content", .str d.content)])])))

/-- The createPerson/updatePerson payload assembled by the dispatcher.
Array members keep arbitrary JSON elements, since the source casts without
checking element types. -/
structure PersonData where
  name : Option String := none
  email_addresses : Option (List JValue) := none
  phone_numbers : Option (List JValue) := none
  job_title : Option String := none
  description : Option String := none

/-- The recordData object built by createPerson and updatePerson: each
member is added only when the corresponding datum is truthy (a non-empty
string, or any array — JS arrays are truthy even when empty); phone
numbers are wrapped as original_phone_number objects. -/
def personRecordData (d : PersonData) : List (String × JValue) :=
  (match d.name with
   | some s => if s = "" then [] else [("name", JValue.str s)]
   | none => []) ++
  (match d.email_addresses with
   | some l => [("email_addresses", JValue.arr l)]
   | none => []) ++
  (match d.phone_numbers with
   | some l => [("phone_numbers", JValue.arr
       (l.map (fun p => JValue.obj [("original_phone_number", p)])))]
   | none => []) ++
  (match d.job_title with
   | some s => if s = "" then [] else [("job_title", JValue.str s)]
   | none => []) ++
  (match d.description with
   | some s => if s = "" then [] else [("description", JValue.str s)]
   | none => [])

/-- AttioClient.createPerson: POST /objects/people/records with
data.values = recordData. -/
def AttioClient.createPerson (c : AttioClient) (fetch : FetchFn) (d : PersonData) :
    List HttpRequest × Except String JValue :=
  c.makeRequest fetch "/objects/people/records" "POST"
    (some (jsonStringify (.obj [("data", .obj [("values", .obj (personRecordData d))])])))

/-- The createCompany/updateCompany payload assembled by the dispatcher. -/
structure CompanyData where
  name : Option String := none
  domains : Option (List JValue) := none
  description : Option String := none

/-- The recordData object built by createCompany and updateCompany. -/
def companyRecordData (d : CompanyData) : List (String × JValue) :=
  (match d.name with
   | some s => if s = "" then [] else [("name", JValue.str s)]
   | none => []) ++
  (match d.domains with
   | some l => [("domains", JValue.arr l)]
   | none => []) ++
  (match d.description with
   | some s => if s = "" then [] else [("description", JValue.str s)]
   | none => [])

/-- AttioClient.createCompany: POST /objects/companies/records. -/
def AttioClient.createCompany (c : AttioClient) (fetch : FetchFn) (d : CompanyData) :
    List HttpRequest × Except String JValue :=
  c.makeRequest fetch "/objects/companies/records" "POST"
    (some (jsonStringify (.obj [("data", .obj [("values", .obj (companyRecordData d))])])))

/-- AttioClient.updatePerson: PATCH /objects/people/records/recordId. -/
def AttioClient.updatePerson (c : AttioClient) (fetch : FetchFn)
    (recordId : String) (d : PersonData) : List HttpRequest × Except String JValue :=
  c.makeRequest fetch ("/objects/people/records/" ++ recordId) "PATCH"
    (some (jsonStringify (.obj [("data", .obj [("values", .obj (personRecordData d))])])))

/-- AttioClient.updateCompany: PATCH /objects/companies/records/recordId. -/
def AttioClient.updateCompany (c : AttioClient) (fetch : FetchFn)
    (recordId : String) (d : CompanyData) : List HttpRequest × Except String JValue :=
  c.makeRequest fetch ("/objects/companies/records/" ++ recordId) "PATCH"
    (some (jsonStringify (.obj [("data", .obj [("values", .obj (companyRecordData d))])])))

/-- typeof args.k === string: the string value when present, none otherwise. -/
def strArg? (args : List (String × JValue)) (k : String) : Option String :=
  match List.lookup k args with
  | some (.str s) => some s
  | _ => none

/-- typeof args.k === number: the numeric value when present, none otherwise. -/
def numArg? (args : List (String × JValue)) (k : String) : Option Int :=
  match List.lookup k args with
  | some (.num n) => some n
  | _ => none

/-- Array.isArray(args.k): the array elements when present, none otherwise. -/
def arrArg? (args : List (String × JValue)) (k : String) : Option (List JValue) :=
  match List.lookup k args with
  | some (.arr l) => some l
  | _ => none

/-- The ternary `typeof args.k === number ? args.k : dflt`. -/
def numArg (args : List (String × JValue)) (k : String) (dflt : Int) : Int :=
  (numArg? args k).getD dflt

/-- The ternary `typeof args.k === string ? args.k : dflt`. -/
def strArg (args : List (String × JValue)) (k : String) (dflt : String) : String :=
  (strArg? args k).getD dflt

/-- The seven-element $or array built for attio_search_people from a query. -/
def peopleOrList (q : String) : List JValue :=
  [.obj [("name", .obj [("$contains", .str q)])],
   .obj [("email_addresses", .obj [("$contains", .str q)])],
   .obj [("description", .obj [("$contains", .str q)])],
   .obj [("job_title", .obj [("$contains", .str q)])],
   .obj [("path", .arr [.arr [.str "people", .str "company"],
                        .arr [.str "companies", .str "name"]]),
         ("constraints", .obj [("$contains", .str q)])],
   .obj [("path", .arr [.arr [.str "people", .str "company"],
                        .arr [.str "companies", .str "description"]]),
         ("constraints", .obj [("$contains", .str q)])],
   .obj [("primary_location", .obj [("locality", .obj [("$contains", .str q)])])]]

/-- The filters object assembled by the attio_search_people case: a $or
member when a string query is given, then an email_addresses member when a
string email is given (insertion order). -/
def peopleFilters (args : List (String × JValue)) : List (String × JValue) :=
  (match strArg? args "query" with
   | some q => [("$or", JValue.arr (peopleOrList q))]
   | none => []) ++
  (match strArg? args "email" with
   | some e => [("email_addresses", JValue.str e)]
   | none => [])

/-- The six-element $or array built for attio_search_companies. -/
def companiesOrList (q : String) : List JValue :=
  [.obj [("name", .obj [("$contains", .str q)])],
   .obj [("domains", .obj [("domain", .obj [("$contains", .str q)])])],
   .obj [("description", .obj [("$contains", .str q)])],
   .obj [("primary_location", .obj [("locality", .obj [("$contains", .str q)])])],
   .obj [("path", .arr [.arr [.str "companies", .str "team"],
                        .arr [.str "people", .str "name"]]),
         ("constraints", .obj [("$contains", .str q)])],
   .obj [("path", .arr [.arr [.str "companies", .str "team"],
                        .arr [.str "people", .str "description"]]),
         ("constraints", .obj [("$contains", .str q)])]]

/-- The filters object assembled by the attio_search_companies case. -/
def companiesFilters (args : List (String × JValue)) : List (String × JValue) :=
  (match strArg? args "query" with
   | some q => [("$or", JValue.arr (companiesOrList q))]
   | none => []) ++
  (match strArg? args "domain" with
   | some d => [("domains", JValue.obj [("domain", .str d)])]
   | none => [])

/-- The filters object assembled by the attio_search_deals case: name and
stage members, then a value range object when minValue or maxValue is a
number ($gte before $lte, insertion order). -/
def dealsFilters (args : List (String × JValue)) : List (String × JValue) :=
  (match strArg? args "name" with
   | some s => [("name", JValue.obj [("$contains", .str s)])]
   | none => []) ++
  (match strArg? args "stage" with
   | some s => [("stage", JValue.str s)]
   | none => []) ++
  (if (numArg? args "minValue").isSome || (numArg? args "maxValue").isSome then
     [("value", JValue.obj
       ((match numArg? args "minValue" with
         | some n => [("$gte", JValue.num n)]
         | none => []) ++
        (match numArg? args "maxValue" with
         | some n => [("$lte", JValue.num n)]
         | none => [])))]
   else [])

/-- The PersonData coercion performed by the attio_create_person and
attio_update_person cases. -/
def personDataOf (args : List (String × JValue)) : PersonData :=
  { name := strArg? args "name",
    email_addresses := arrArg? args "email_addresses",
    phone_numbers := arrArg? args "phone_numbers",
    job_title := strArg? args "job_title",
    description := strArg? args "description" }

/-- The CompanyData coercion performed by the attio_create_company and
attio_update_company cases. -/
def companyDataOf (args : List (String × JValue)) : CompanyData :=
  { name := strArg? args "name",
    domains := arrArg? args "domains",
    description := strArg? args "description" }

/-- The NoteData coercion performed by the attio_create_note case. -/
def noteDataOf (args : List (String × JValue)) : NoteData :=
  { parent_object := strArg args "parent_object" "",
    parent_record_id := strArg args "parent_record_id" "",
    title := strArg args "title" "",
    content := strArg args "content" "",
    format := strArg args "format" "plaintext" }

/-- One content block of a ToolCallResult (this server only ever emits
text blocks). -/
inductive ContentBlock where
  | text : String → ContentBlock
deriving DecidableEq

/-- The response envelope of a tool call.  The source omits isError on
success returns, which the protocol reads as false; we make that default
explicit. -/
structure ToolCallResult where
  content : List ContentBlock
  isError : Bool := false
deriving DecidableEq

/-- The AsyncLocalStorage store: the request context bound by the
transport, holding the freshly constructed backend adapter. -/
structure RequestContext where
  attioClient : AttioClient

/-- getAttioClient: read the AsyncLocalStorage store; outside any run
scope the store is absent and the function throws. -/
def getAttioClientE (store : Option RequestContext) : Except String AttioClient :=
  match store with
  | none => .error "Attio client not found in AsyncLocalStorage"
  | some s => .ok s.attioClient

/-- The body of the CallTool request handler: the switch over the tool
name, run inside try.  Each case resolves the adapter from the context
store, coerces its arguments, performs the adapter call, and builds its
success envelope; the default case throws Unknown tool.  Thrown errors are
returned in the Except channel, alongside the outbound requests already
issued. -/
def callToolBody (store : Option RequestContext) (fetch : FetchFn)
    (name : String) (args : List (String × JValue)) :
    List HttpRequest × Except String ToolCallResult :=
  match name with
  | "attio_search_people" =>
    (match getAttioClientE store with
     | .error e => ([], .error e)
     | .ok client =>
       match client.searchPeople fetch (peopleFilters args) (numArg args "limit" 25) with
       | (reqs, .error e) => (reqs, .error e)
       | (reqs, .ok result) =>
         (reqs, .ok { content := [.text (jsonStringifyPretty 0 result)] }))
  | "attio_search_companies" =>
    (match getAttioClientE store with
     | .error e => ([], .error e)
     | .ok client =>
       match client.searchCompanies fetch (companiesFilters args) (numArg args "limit" 25) with
       | (reqs, .error e) => (reqs, .error e)
       | (reqs, .ok result) =>
         (reqs, .ok { content := [.text (jsonStringifyPretty 0 result)] }))
  | "attio_search_deals" =>
    (match getAttioClientE store with
     | .error e => ([], .error e)
     | .ok client =>
       match client.searchDeals fetch (dealsFilters args) (numArg args "limit" 25) with
       | (reqs, .error e) => (reqs, .error e)
       | (reqs, .ok result) =>
         (reqs, .ok { content := [.text (jsonStringifyPretty 0 result)] }))
  | "attio_search_notes" =>
    (match getAttioClientE store with
     | .error e => ([], .error e)
     | .ok client =>
       match client.searchNotes fetch (strArg args "query" "") (numArg args "limit" 50) with
       | (reqs, .error e) => (reqs, .error e)
       | (reqs, .ok result) =>
         (reqs, .ok { content := [.text (jsonStringifyPretty 0 result)] }))
  | "attio_create_note" =>
    (match getAttioClientE store with
     | .error e => ([], .error e)
     | .ok client =>
       match client.createNote fetch (noteDataOf args) with
       | (reqs, .error e) => (reqs, .error e)
       | (reqs, .ok result) =>
         (reqs, .ok { content := [.text (jsonStringifyPretty 0 result)] }))
  | "attio_create_person" =>
    (match getAttioClientE store with
     | .error e => ([], .error e)
     | .ok client =>
       match client.createPerson fetch (personDataOf args) with
       | (reqs, .error e) => (reqs, .error e)
       | (reqs, .ok result) =>
         (reqs, .ok { content := [.text (jsonStringifyPretty 0 result)] }))
  | "attio_create_company" =>
    (match getAttioClientE store with
     | .error e => ([], .error e)
     | .ok client =>
       match client.createCompany fetch (companyDataOf args) with
       | (reqs, .error e) => (reqs, .error e)
       | (reqs, .ok result) =>
         (reqs, .ok { content := [.text (jsonStringifyPretty 0 result)] }))
  | "attio_update_person" =>
    (match getAttioClientE store with
     | .error e => ([], .error e)
     | .ok client =>
       match client.updatePerson fetch (strArg args "record_id" "") (personDataOf args) with
       | (reqs, .error e) => (reqs, .error e)
       | (reqs, .ok result) =>
         (reqs, .ok { content := [.text (jsonStringifyPretty 0 result)] }))
  | "attio_update_company" =>
    (match getAttioClientE store with
     | .error e => ([], .error e)
     | .ok client =>
       match client.updateCompany fetch (strArg args "record_id" "") (companyDataOf args) with
       | (reqs, .error e) => (reqs, .error e)
       | (reqs, .ok result) =>
         (reqs, .ok { content := [.text (jsonStringifyPretty 0 result)] }))
  | _ => ([], .error ("Unknown tool: " ++ name))

/-- The CallTool request handler: the try/catch around the switch.  Any
thrown error is caught and shaped into a single text content block
`Error: message` with isError true; the handler itself never throws. -/
def handleCallTool (store : Option RequestContext) (fetch : FetchFn)
    (name : String) (args : List (String × JValue)) :
    List HttpRequest × ToolCallResult :=
  match callToolBody store fetch name args with
  | (reqs, .ok res) => (reqs, res)
  | (reqs, .error e) =>
    (reqs, { content := [.text ("Error: " ++ e)], isError := true })

/-- One tool descriptor: name, description, JSON-Schema input definition. -/
structure ToolDef where
  name : String
  description : String
  inputSchema : JValue

/-- SEARCH_PEOPLE_TOOL. -/
def SEARCH_PEOPLE_TOOL : ToolDef :=
  { name := "attio_search_people",
    description := "Search for people in your Attio workspace with advanced filtering options. If no parameter other than limit is provided, it will search all people.",
    inputSchema := .obj
      [("type", .str "object"),
       ("properties", .obj
         [("query", .obj
            [("type", .str "string"),
             ("description", .str "Search query for people (searches across name, email, company, job title, description, etc.)")]),
          ("email", .obj
            [("type", .str "string"),
             ("description", .str "Filter by email address")]),
          ("limit", .obj
            [("type", .str "number"),
             ("description", .str "Maximum number of results to return (default: 25, max: 50)"),
             ("default", .num 25)])])] }

/-- SEARCH_COMPANIES_TOOL. -/
def SEARCH_COMPANIES_TOOL : ToolDef :=
  { name := "attio_search_companies",
    description := "Search for companies in your Attio workspace with filtering and sorting. If no parameter other than limit is provided, it will search all companies.",
    inputSchema := .obj
      [("type", .str "object"),
       ("properties", .obj
         [("query", .obj
            [("type", .str "string"),
             ("description", .str "Search query for companies (searches across name, domain, description, employees names, employees descriptions, etc.)")]),
          ("domain", .obj
            [("type", .str "string"),
             ("description", .str "Filter by company domain")]),
          ("limit", .obj
            [("type", .str "number"),
             ("description", .str "Maximum number of results to return (default: 25, max: 50)"),
             ("default", .num 25)])])] }

/-- SEARCH_DEALS_TOOL.  The stage description reproduces the exact
characters stored in the source file. -/
def SEARCH_DEALS_TOOL : ToolDef :=
  { name := "attio_search_deals",
    description := "Search for deals in your Attio workspace with stage and value filtering. If no parameter other than limit is provided, it will search all deals.",
    inputSchema := .obj
      [("type", .str "object"),
       ("properties", .obj
         [("name", .obj
            [("type", .str "string"),
             ("description", .str "Filter by deal name")]),
          ("stage", .obj
            [("type", .str "string"),
             ("description", .str "Filter by deal stage (one of \"Lead\", \"In Progress\", \"Won ðŸŽ‰\", \"Lost\")")]),
          ("minValue", .obj
            [("type", .str "number"),
             ("description", .str "Minimum deal value")]),
          ("maxValue", .obj
            [("type", .str "number"),
             ("description", .str "Maximum deal value")]),
          ("limit", .obj
            [("type", .str "number"),
             ("description", .str "Maximum number of results to return (default: 25, max: 50)"),
             ("default", .num 25)])])] }

/-- SEARCH_NOTES_TOOL. -/
def SEARCH_NOTES_TOOL : ToolDef :=
  { name := "attio_search_notes",
    description := "Search for notes across all objects in your Attio workspace by fetching all notes and filtering by content.",
    inputSchema := .obj
      [("type", .str "object"),
       ("properties", .obj
         [("query", .obj
            [("type", .str "string"),
             ("description", .str "Search query for notes content (searches title, plaintext content, and markdown content). Leave empty to get all notes.")]),
          ("limit", .obj
            [("type", .str "number"),
             ("description", .str "Maximum number of notes to fetch and search through (default: 50, max: 50)"),
             ("default", .num 50)])])] }

/-- CREATE_NOTE_TOOL. -/
def CREATE_NOTE_TOOL : ToolDef :=
  { name := "attio_create_note",
    description := "Create a new note for a given record in Attio.",
    inputSchema := .obj
      [("type", .str "object"),
       ("properties", .obj
         [("parent_object", .obj
            [("type", .str "string"),
             ("description", .str "The object type to attach the note to (e.g., \"people\", \"companies\", \"deals\")"),
             ("enum", .arr [.str "people", .str "companies", .str "deals"])]),
          ("parent_record_id", .obj
            [("type", .str "string"),
             ("description", .str "The ID of the record to attach the note to")]),
          ("title", .obj
            [("type", .str "string"),
             ("description", .str "Title of the note")]),
          ("content", .obj
            [("type", .str "string"),
             ("description", .str "Content of the note")]),
          ("format", .obj
            [("type", .str "string"),
             ("description", .str "Format of the note content"),
             ("enum", .arr [.str "plaintext", .str "markdown"]),
             ("default", .str "plaintext")])]),
       ("required", .arr [.str "parent_object", .str "parent_record_id", .str "title", .str "content"])] }

/-- CREATE_PERSON_TOOL. -/
def CREATE_PERSON_TOOL : ToolDef :=
  { name := "attio_create_person",
    description := "Create a new person record in your Attio workspace.",
    inputSchema := .obj
      [("type", .str "object"),
       ("properties", .obj
         [("name", .obj
            [("type", .str "string"),
             ("description", .str "Full name of the person")]),
          ("email_addresses", .obj
            [("type", .str "array"),
             ("items", .obj [("type", .str "string")]),
             ("description", .str "Array of email addresses for the person")]),
          ("phone_numbers", .obj
            [("type", .str "array"),
             ("items", .obj [("type", .str "string")]),
             ("description", .str "Array of phone numbers for the person")]),
          ("job_title", .obj
            [("type", .str "string"),
             ("description", .str "Job title of the person")]),
          ("description", .obj
            [("type", .str "string"),
             ("description", .str "Description or notes about the person")])])] }

/-- CREATE_COMPANY_TOOL. -/
def CREATE_COMPANY_TOOL : ToolDef :=
  { name := "attio_create_company",
    description := "Create a new company record in your Attio workspace.",
    inputSchema := .obj
      [("type", .str "object"),
       ("properties", .obj
         [("name", .obj
            [("type", .str "string"),
             ("description", .str "Name of the company")]),
          ("domains", .obj
            [("type", .str "array"),
             ("items", .obj [("type", .str "string")]),
             ("description", .str "Array of domain names associated with the company")]),
          ("description", .obj
            [("type", .str "string"),
             ("description", .str "Description of the company")])])] }

/-- UPDATE_PERSON_TOOL. -/
def UPDATE_PERSON_TOOL : ToolDef :=
  { name := "attio_update_person",
    description := "Update an existing person record in your Attio workspace.",
    inputSchema := .obj
      [("type", .str "object"),
       ("properties", .obj
         [("record_id", .obj
            [("type", .str "string"),
             ("description", .str "ID of the person record to update")]),
          ("name", .obj
            [("type", .str "string"),
             ("description", .str "Full name of the person")]),
          ("email_addresses", .obj
            [("type", .str "array"),
             ("items", .obj [("type", .str "string")]),
             ("description", .str "Array of email addresses for the person")]),
          ("phone_numbers", .obj
            [("type", .str "array"),
             ("items", .obj [("type", .str "string")]),
             ("description", .str "Array of phone numbers for the person")]),
          ("job_title", .obj
            [("type", .str "string"),
             ("description", .str "Job title of the person")]),
          ("description", .obj
            [("type", .str "string"),
             ("description", .str "Description or notes about the person")])]),
       ("required", .arr [.str "record_id"])] }

/-- UPDATE_COMPANY_TOOL. -/
def UPDATE_COMPANY_TOOL : ToolDef :=
  { name := "attio_update_company",
    description := "Update an existing company record in your Attio workspace.",
    inputSchema := .obj
      [("type", .str "object"),
       ("properties", .obj
         [("record_id", .obj
            [("type", .str "string"),
             ("description", .str "ID of the company record to update")]),
          ("name", .obj
            [("type", .str "string"),
             ("description", .str "Name of the company")]),
          ("domains", .obj
            [("type", .str "array"),
             ("items", .obj [("type", .str "string")]),
             ("description", .str "Array of domain names associated with the company")]),
          ("description", .obj
            [("type", .str "string"),
             ("description", .str "Description of the company")])]),
       ("required", .arr [.str "record_id"])] }

/-- The ListTools request handler: returns the static nine-element tool
catalog.  It takes the (irrelevant) request as argument so that stability
across calls can be stated. -/
def listToolsHandler (_request : Unit) : List ToolDef :=
  [SEARCH_PEOPLE_TOOL,
   SEARCH_COMPANIES_TOOL,
   SEARCH_DEALS_TOOL,
   SEARCH_NOTES_TOOL,
   CREATE_NOTE_TOOL,
   CREATE_PERSON_TOOL,
   CREATE_COMPANY_TOOL,
   UPDATE_PERSON_TOOL,
   UPDATE_COMPANY_TOOL]

/-- Credential resolution at the transport boundary:
process.env.ATTIO_API_KEY || headers x-auth-token, followed by the
falsiness check `if (!apiKey) return`.  An empty string is falsy in JS, so
an empty env value falls through to the header and an empty final value
counts as missing. -/
def resolveApiKey (env hdr : Option String) : Option String :=
  let e := env.getD ""
  let h := hdr.getD ""
  if e ≠ "" then some e else if h ≠ "" then some h else none

/-- A parsed inbound protocol body, as far as the dispatcher is concerned:
either one CallTool request or some other message (initialize, ListTools,
...) that does not reach the tool dispatcher. -/
structure ToolCallRequest where
  name : String
  args : List (String × JValue)

/-- What the server wrote back at the HTTP layer: nothing at all (the
silent missing-credential return), a normal delegation to the protocol
engine over a 200-level exchange, or an explicit status with a JSON
body. -/
inductive HttpResponse where
  | silent : HttpResponse
  | handled : HttpResponse
  | status : Nat → String → HttpResponse
deriving DecidableEq

/-- Per-process server state: the sessionId → transport lookup map of the
deprecated transport, and the allocation counter modelling object
identity of `new AttioClient(...)`. -/
structure ServerState where
  transports : List (String × Nat)
  nextAlloc : Nat

/-- Map.set: overwrite in place when the key exists, append otherwise. -/
def mapSet (k : String) (v : Nat) (m : List (String × Nat)) : List (String × Nat) :=
  if m.any (fun p => p.1 = k) then
    m.map (fun p => if p.1 = k then (k, v) else p)
  else m ++ [(k, v)]

/-- Map.delete: remove every entry with the key (a no-op when absent, so
double removal is harmless). -/
def mapDelete (k : String) (m : List (String × Nat)) : List (String × Nat) :=
  m.filter (fun p => p.1 ≠ k)

/-- Everything observable about the processing of one inbound HTTP
request: the AsyncLocalStorage scopes entered (with their bound context),
the store under which a CallTool body was dispatched (if one was), the
outbound backend requests, the tool result, and the HTTP-level answer. -/
structure PostOutcome where
  scopes : List RequestContext := []
  dispatched : Option (Option RequestContext × ToolCallRequest) := none
  requests : List HttpRequest := []
  result : Option ToolCallResult := none
  response : HttpResponse := .silent

/-- POST /mcp (streamable HTTP transport): resolve the credential and
silently return when it is missing; otherwise construct a fresh
AttioClient, open one AsyncLocalStorage scope around the protocol engine,
and dispatch the body inside it. -/
def handleMcpPost (fetch : FetchFn) (st : ServerState) (env hdr : Option String)
    (body : Option ToolCallRequest) : ServerState × PostOutcome :=
  match resolveApiKey env hdr with
  | none => (st, {})
  | some key =>
    let attioClient : AttioClient := { apiKey := key, allocId := st.nextAlloc }
    let ctx : RequestContext := { attioClient := attioClient }
    let dispatchOut : Option (List HttpRequest × ToolCallResult) :=
      body.map (fun r => handleCallTool (some ctx) fetch r.name r.args)
    ({ st with nextAlloc := st.nextAlloc + 1 },
     { scopes := [ctx],
       dispatched := body.map (fun r => (some ctx, r)),
       requests := (dispatchOut.map Prod.fst).getD [],
       result := dispatchOut.map Prod.snd,
       response := .handled })

/-- GET /sse: create a transport, register its session id in the map, and
connect a fresh protocol engine.  No credential is read and no AttioClient
is constructed. -/
def handleSseGet (st : ServerState) (sid : String) (handle : Nat) :
    ServerState × PostOutcome :=
  ({ st with transports := mapSet sid handle st.transports },
   { response := .handled })

/-- The close handler registered on the SSE response stream: delete the
session map entry. -/
def handleSseClose (st : ServerState) (sid : String) : ServerState × PostOutcome :=
  ({ st with transports := mapDelete sid st.transports }, {})

/-- POST /messages: look up the transport by the sessionId query
parameter; absent → 404 Transport not found; present → the same
credential rule as /mcp (silent return when missing), then a fresh
AttioClient bound in a fresh AsyncLocalStorage scope around just this one
message. -/
def handleMessagesPost (fetch : FetchFn) (st : ServerState) (sessionId : String)
    (env hdr : Option String) (body : Option ToolCallRequest) :
    ServerState × PostOutcome :=
  match List.lookup sessionId st.transports with
  | some _handle =>
    (match resolveApiKey env hdr with
     | none => (st, {})
     | some key =>
       let attioClient : AttioClient := { apiKey := key, allocId := st.nextAlloc }
       let ctx : RequestContext := { attioClient := attioClient }
       let dispatchOut : Option (List HttpRequest × ToolCallResult) :=
         body.map (fun r => handleCallTool (some ctx) fetch r.name r.args)
       ({ st with nextAlloc := st.nextAlloc + 1 },
        { scopes := [ctx],
          dispatched := body.map (fun r => (some ctx, r)),
          requests := (dispatchOut.map Prod.fst).getD [],
          result := dispatchOut.map Prod.snd,
          response := .handled }))
  | none =>
    (st, { response := .status 404 (jsonStringify (.obj [("error", .str "Transport not found")])) })

/-- One inbound event at the HTTP layer. -/
inductive Event where
  | mcpPost : Option String → Option String → Option ToolCallRequest → Event
  | sseOpen : String → Nat → Event
  | msgPost : String → Option String → Option String → Option ToolCallRequest → Event
  | sseClose : String → Event

/-- The server reacting to one event. -/
def step (fetch : FetchFn) (st : ServerState) : Event → ServerState × PostOutcome
  | .mcpPost env hdr body => handleMcpPost fetch st env hdr body
  | .sseOpen sid handle => handleSseGet st sid handle
  | .msgPost sid env hdr body => handleMessagesPost fetch st sid env hdr body
  | .sseClose sid => handleSseClose st sid

/-- The server processing a whole trace of events, collecting the
per-request outcomes in order. -/
def runEvents (fetch : FetchFn) : ServerState → List Event → ServerState × List PostOutcome
  | st, [] => (st, [])
  | st, e :: es =>
    let s₁ := step fetch st e
    let s₂ := runEvents fetch s₁.1 es
    (s₂.1, s₁.2 :: s₂.2)

/-- The object identities of every adapter bound in any scope of a list of
outcomes, in order. -/
def scopeAllocIds (outs : List PostOutcome) : List Nat :=
  (outs.map (fun o => o.scopes.map (fun c => c.attioClient.allocId))).flatten

/-- Pure reading of one conjunct of the note filter, defined for every
non-null note: true exactly when the note is an object whose member `k` is
a string that (lower-cased) includes the lower-cased query. -/
def strFieldMatch (queryLower : String) (note : JValue) (k : String) : Bool :=
  match note with
  | .obj fs =>
    match List.lookup k fs with
    | some (.str s) => strIncludes (jsToLower s) queryLower
    | _ => false
  | _ => false

/-- Pure reading of the whole note filter. -/
def noteMatchesP (queryLower : String) (note : JValue) : Bool :=
  strFieldMatch queryLower note "title" ||
  strFieldMatch queryLower note "content_plaintext" ||
  strFieldMatch queryLower note "content_markdown"

/-- The GET request issued by searchNotes. -/
def notesReq (c : AttioClient) (limit : Int) : HttpRequest :=
  { url := c.baseUrl ++ ("/notes?limit=" ++ toString limit), method := "GET",
    authBearer := c.apiKey, body := none }

/-- The 404 response written by POST /messages for an unknown session. -/
def transportNotFound : HttpResponse :=
  .status 404 (jsonStringify (.obj [("error", .str "Transport not found")]))

/-- A fetch stub whose every response is ok with the given JSON payload
(witness fixture). -/
def okFetch (j : JValue) : FetchFn :=
  fun _ => { ok := true, status := 200, statusText := "OK", errorText := "", json := j }

/-- A fetch stub whose every response is a 401 failure (witness fixture). -/
def badFetch : FetchFn :=
  fun _ => { ok := false, status := 401, statusText := "Unauthorized", errorText := "bad key", json := .null }

/-- Witness fixture: a note whose fields do not mention the query. -/
def noteA : JValue := .obj [("title", .str "First note"), ("content_plaintext", .str "alpha")]

/-- Witness fixture: the one note whose markdown body contains the query
(case-insensitively). -/
def noteB : JValue := .obj [("title", .str "Second"), ("content_markdown", .str "Has NEEDLE inside")]

/-- Witness fixture: another note whose fields do not mention the query. -/
def noteC : JValue := .obj [("title", .str "Third"), ("content_plaintext", .str "gamma")]

theorem callToolBody_unknown (store : Option RequestContext) (fetch : FetchFn)
    (name : String) (args : List (String × JValue))
    (h : name ∉ (listToolsHandler ()).map ToolDef.name) :
    callToolBody store fetch name args = ([], .error ("Unknown tool: " ++ name)) := by
  simp [listToolsHandler, SEARCH_PEOPLE_TOOL, SEARCH_COMPANIES_TOOL, SEARCH_DEALS_TOOL,
        SEARCH_NOTES_TOOL, CREATE_NOTE_TOOL, CREATE_PERSON_TOOL, CREATE_COMPANY_TOOL,
        UPDATE_PERSON_TOOL, UPDATE_COMPANY_TOOL] at h
  push_neg at h
  obtain ⟨h1, h2, h3, h4, h5, h6, h7, h8, h9⟩ := h
  unfold callToolBody
  split <;> simp_all

/-- Claim C2 (amended): for any tool name not present in the tool registry,
the dispatcher returns is_error true with the single text block
Error: Unknown tool: name, issues no backend request, and never throws
(the handler returns normally for every input). -/
theorem unknown_tool_error_result (store : Option RequestContext) (fetch : FetchFn)
    (name : String) (args : List (String × JValue))
    (h : name ∉ (listToolsHandler ()).map ToolDef.name) :
    handleCallTool store fetch name args
      = ([], { content := [.text ("Error: Unknown tool: " ++ name)], isError := true }) := by
  unfold handleCallTool
  rw [callToolBody_unknown store fetch name args h]
  rfl

/-- Witness for C2 at the concrete unknown name made_up_tool. -/
theorem unknown_tool_error_result_witness :
    ("made_up_tool" ∉ (listToolsHandler ()).map ToolDef.name)
    ∧ handleCallTool none badFetch "made_up_tool" []
        = ([], { content := [.text "Error: Unknown tool: made_up_tool"], isError := true }) :=
  ⟨by decide, unknown_tool_error_result none badFetch "made_up_tool" [] (by decide)⟩

/-- Claim C2 (counterexample): for the unknown tool name nonexistent_tool
the dispatcher's content block is Error: Unknown tool: nonexistent_tool,
not the bare Unknown tool: nonexistent_tool the claim states, because the
default switch case throws and the generic catch prefixes Error: . -/
theorem unknown_tool_counterexample :
    (handleCallTool none badFetch "nonexistent_tool" []).2.content
      = [ContentBlock.text "Error: Unknown tool: nonexistent_tool"]
    ∧ (handleCallTool none badFetch "nonexistent_tool" []).2.content
      ≠ [ContentBlock.text "Unknown tool: nonexistent_tool"] :=
  ⟨rfl, by decide⟩

/-- Claim C3: when the adapter call performed by attio_create_person
raises with any message, the dispatcher catches it and returns a
ToolCallResult with is_error true whose sole content block is
Error: message; and with a credential present the /mcp transport answer is
still the normal handled exchange, not a transport fault. -/
theorem create_person_fault_contained :
    (∀ (client : AttioClient) (fetch : FetchFn) (args : List (String × JValue)) (msg : String),
      (client.createPerson fetch (personDataOf args)).2 = .error msg →
      handleCallTool (some { attioClient := client }) fetch "attio_create_person" args
        = ((client.createPerson fetch (personDataOf args)).1,
           { content := [.text ("Error: " ++ msg)], isError := true }))
    ∧ (∀ (fetch : FetchFn) (st : ServerState) (env hdr : Option String)
        (args : List (String × JValue)) (k : String),
        resolveApiKey env hdr = some k →
        ((handleMcpPost fetch st env hdr
            (some { name := "attio_create_person", args := args })).2).response
          = .handled) := by
  constructor
  · intro client fetch args msg h
    unfold handleCallTool callToolBody
    rcases hcp : client.createPerson fetch (personDataOf args) with ⟨reqs, res⟩
    rw [hcp] at h
    simp only at h
    subst h
    simp [getAttioClientE, hcp]
  · intro fetch st env hdr args k h
    simp [handleMcpPost, h]

/-- Witness for C3 with a fetch stub that fails with a 401. -/
theorem create_person_fault_contained_witness :
    ((AttioClient.mk "k" ATTIO_API_URL 0).createPerson badFetch
        (personDataOf [("name", JValue.str "Al")])).2
      = .error "Attio API error: 401 Unauthorized - bad key"
    ∧ handleCallTool (some { attioClient := AttioClient.mk "k" ATTIO_API_URL 0 }) badFetch
        "attio_create_person" [("name", JValue.str "Al")]
      = (((AttioClient.mk "k" ATTIO_API_URL 0).createPerson badFetch
            (personDataOf [("name", JValue.str "Al")])).1,
         { content := [.text "Error: Attio API error: 401 Unauthorized - bad key"],
           isError := true })
    ∧ resolveApiKey none (some "k") = some "k"
    ∧ ((handleMcpPost badFetch { transports := [], nextAlloc := 0 } none (some "k")
          (some { name := "attio_create_person", args := [] })).2).response = .handled :=
  ⟨rfl,
   create_person_fault_contained.1 _ badFetch _ _ rfl,
   rfl,
   create_person_fault_contained.2 badFetch _ none (some "k") [] "k" rfl⟩

/-- Linking lemma: the shared success wrapper of each dispatcher case maps
an adapter call that returned ok v to the envelope holding exactly the
pretty-printed serialization of that same v. -/
theorem wrap_ok (p : List HttpRequest × Except String JValue) (v : JValue)
    (h : p.2 = .ok v) :
    (match p with
     | (reqs, Except.error e) => (reqs, Except.error e)
     | (reqs, Except.ok result) =>
       (reqs, Except.ok ({ content := [ContentBlock.text (jsonStringifyPretty 0 result)] } : ToolCallResult)))
    = (p.1, .ok ({ content := [ContentBlock.text (jsonStringifyPretty 0 v)] } : ToolCallResult)) := by
  rcases p with ⟨reqs, res⟩
  cases res <;> simp_all

/-- Claim C6: on every successful tool invocation — for each of the nine
tools, whenever its adapter call returns ok v — the dispatcher returns a
ToolCallResult whose content is exactly one text block holding the
pretty-printed (two-space indented) JSON serialization of that same
adapter result v, with is_error false, alongside the requests the adapter
issued. -/
theorem success_envelope_shape :
    (∀ (client : AttioClient) (fetch : FetchFn) (args : List (String × JValue)) (v : JValue),
      (client.searchPeople fetch (peopleFilters args) (numArg args "limit" 25)).2 = .ok v →
      handleCallTool (some { attioClient := client }) fetch "attio_search_people" args
        = ((client.searchPeople fetch (peopleFilters args) (numArg args "limit" 25)).1,
           { content := [.text (jsonStringifyPretty 0 v)], isError := false }))
    ∧ (∀ (client : AttioClient) (fetch : FetchFn) (args : List (String × JValue)) (v : JValue),
      (client.searchCompanies fetch (companiesFilters args) (numArg args "limit" 25)).2 = .ok v →
      handleCallTool (some { attioClient := client }) fetch "attio_search_companies" args
        = ((client.searchCompanies fetch (companiesFilters args) (numArg args "limit" 25)).1,
           { content := [.text (jsonStringifyPretty 0 v)], isError := false }))
    ∧ (∀ (client : AttioClient) (fetch : FetchFn) (args : List (String × JValue)) (v : JValue),
      (client.searchDeals fetch (dealsFilters args) (numArg args "limit" 25)).2 = .ok v →
      handleCallTool (some { attioClient := client }) fetch "attio_search_deals" args
        = ((client.searchDeals fetch (dealsFilters args) (numArg args "limit" 25)).1,
           { content := [.text (jsonStringifyPretty 0 v)], isError := false }))
    ∧ (∀ (client : AttioClient) (fetch : FetchFn) (args : List (String × JValue)) (v : JValue),
      (client.searchNotes fetch (strArg args "query" "") (numArg args "limit" 50)).2 = .ok v →
      handleCallTool (some { attioClient := client }) fetch "attio_search_notes" args
        = ((client.searchNotes fetch (strArg args "query" "") (numArg args "limit" 50)).1,
           { content := [.text (jsonStringifyPretty 0 v)], isError := false }))
    ∧ (∀ (client : AttioClient) (fetch : FetchFn) (args : List (String × JValue)) (v : JValue),
      (client.createNote fetch (noteDataOf args)).2 = .ok v →
      handleCallTool (some { attioClient := client }) fetch "attio_create_note" args
        = ((client.createNote fetch (noteDataOf args)).1,
           { content := [.text (jsonStringifyPretty 0 v)], isError := false }))
    ∧ (∀ (client : AttioClient) (fetch : FetchFn) (args : List (String × JValue)) (v : JValue),
      (client.createPerson fetch (personDataOf args)).2 = .ok v →
      handleCallTool (some { attioClient := client }) fetch "attio_create_person" args
        = ((client.createPerson fetch (personDataOf args)).1,
           { content := [.text (jsonStringifyPretty 0 v)], isError := false }))
    ∧ (∀ (client : AttioClient) (fetch : FetchFn) (args : List (String × JValue)) (v : JValue),
      (client.createCompany fetch (companyDataOf args)).2 = .ok v →
      handleCallTool (some { attioClient := client }) fetch "attio_create_company" args
        = ((client.createCompany fetch (companyDataOf args)).1,
           { content := [.text (jsonStringifyPretty 0 v)], isError := false }))
    ∧ (∀ (client : AttioClient) (fetch : FetchFn) (args : List (String × JValue)) (v : JValue),
      (client.updatePerson fetch (strArg args "record_id" "") (personDataOf args)).2 = .ok v →
      handleCallTool (some { attioClient := client }) fetch "attio_update_person" args
        = ((client.updatePerson fetch (strArg args "record_id" "") (personDataOf args)).1,
           { content := [.text (jsonStringifyPretty 0 v)], isError := false }))
    ∧ (∀ (client : AttioClient) (fetch : FetchFn) (args : List (String × JValue)) (v : JValue),
      (client.updateCompany fetch (strArg args "record_id" "") (companyDataOf args)).2 = .ok v →
      handleCallTool (some { attioClient := client }) fetch "attio_update_company" args
        = ((client.updateCompany fetch (strArg args "record_id" "") (companyDataOf args)).1,
           { content := [.text (jsonStringifyPretty 0 v)], isError := false })) := by
  refine ⟨?_, ?_, ?_, ?_, ?_, ?_, ?_, ?_, ?_⟩ <;>
    (intro client fetch args v h
     unfold handleCallTool callToolBody
     dsimp only [getAttioClientE]
     rw [wrap_ok _ v h]
     rfl)

/-- Witness for C6 at successful concrete search_people and create_person
calls: the envelope is the pretty-print of the very value the fetch stub
returned. -/
theorem success_envelope_shape_witness :
    ((AttioClient.mk "k" ATTIO_API_URL 0).searchPeople (okFetch (.obj [("ok", .bool true)]))
        (peopleFilters []) (numArg [] "limit" 25)).2 = .ok (.obj [("ok", .bool true)])
    ∧ handleCallTool (some { attioClient := AttioClient.mk "k" ATTIO_API_URL 0 })
        (okFetch (.obj [("ok", .bool true)])) "attio_search_people" []
      = (((AttioClient.mk "k" ATTIO_API_URL 0).searchPeople (okFetch (.obj [("ok", .bool true)]))
            (peopleFilters []) (numArg [] "limit" 25)).1,
         { content := [.text (jsonStringifyPretty 0 (.obj [("ok", .bool true)]))], isError := false })
    ∧ ((AttioClient.mk "k" ATTIO_API_URL 0).createPerson (okFetch (.str "made"))
        (personDataOf [("name", JValue.str "Al")])).2 = .ok (.str "made")
    ∧ handleCallTool (some { attioClient := AttioClient.mk "k" ATTIO_API_URL 0 })
        (okFetch (.str "made")) "attio_create_person" [("name", JValue.str "Al")]
      = (((AttioClient.mk "k" ATTIO_API_URL 0).createPerson (okFetch (.str "made"))
            (personDataOf [("name", JValue.str "Al")])).1,
         { content := [.text (jsonStringifyPretty 0 (.str "made"))], isError := false }) :=
  ⟨rfl,
   success_envelope_shape.1 (AttioClient.mk "k" ATTIO_API_URL 0)
     (okFetch (.obj [("ok", .bool true)])) [] (.obj [("ok", .bool true)]) rfl,
   rfl,
   success_envelope_shape.2.2.2.2.2.1 (AttioClient.mk "k" ATTIO_API_URL 0)
     (okFetch (.str "made")) [("name", JValue.str "Al")] (.str "made") rfl⟩

/-- Claim C7: the ListTools handler is pure: every call returns the
identical ordered nine-element catalog (a fixed list of descriptors), with
the nine tool names in their declaration order. -/
theorem list_tools_stable :
    (∀ u v : Unit, listToolsHandler u = listToolsHandler v)
    ∧ (listToolsHandler ()).map ToolDef.name
        = ["attio_search_people", "attio_search_companies", "attio_search_deals",
           "attio_search_notes", "attio_create_note", "attio_create_person",
           "attio_create_company", "attio_update_person", "attio_update_company"]
    ∧ (listToolsHandler ()).length = 9 :=
  ⟨fun _ _ => rfl, rfl, rfl⟩

theorem handleCallTool_fst (store : Option RequestContext) (fetch : FetchFn)
    (name : String) (args : List (String × JValue)) :
    (handleCallTool store fetch name args).1 = (callToolBody store fetch name args).1 := by
  unfold handleCallTool
  rcases callToolBody store fetch name args with ⟨reqs, res⟩
  cases res <;> rfl

theorem resultMatch_fst (p : List HttpRequest × Except String JValue) :
    (match p with
     | (reqs, Except.error e) => (reqs, Except.error e)
     | (reqs, Except.ok result) =>
       (reqs, Except.ok ({ content := [ContentBlock.text (jsonStringifyPretty 0 result)] } : ToolCallResult))).1
    = p.1 := by
  rcases p with ⟨reqs, res⟩
  cases res <;> rfl

theorem callToolBody_people_fst (ctx : RequestContext) (fetch : FetchFn)
    (args : List (String × JValue)) :
    (callToolBody (some ctx) fetch "attio_search_people" args).1
      = (ctx.attioClient.searchPeople fetch (peopleFilters args) (numArg args "limit" 25)).1 := by
  have h := resultMatch_fst (ctx.attioClient.searchPeople fetch (peopleFilters args) (numArg args "limit" 25))
  unfold callToolBody getAttioClientE
  exact h

theorem callToolBody_companies_fst (ctx : RequestContext) (fetch : FetchFn)
    (args : List (String × JValue)) :
    (callToolBody (some ctx) fetch "attio_search_companies" args).1
      = (ctx.attioClient.searchCompanies fetch (companiesFilters args) (numArg args "limit" 25)).1 := by
  have h := resultMatch_fst (ctx.attioClient.searchCompanies fetch (companiesFilters args) (numArg args "limit" 25))
  unfold callToolBody getAttioClientE
  exact h

theorem callToolBody_deals_fst (ctx : RequestContext) (fetch : FetchFn)
    (args : List (String × JValue)) :
    (callToolBody (some ctx) fetch "attio_search_deals" args).1
      = (ctx.attioClient.searchDeals fetch (dealsFilters args) (numArg args "limit" 25)).1 := by
  have h := resultMatch_fst (ctx.attioClient.searchDeals fetch (dealsFilters args) (numArg args "limit" 25))
  unfold callToolBody getAttioClientE
  exact h

theorem callToolBody_notes_fst (ctx : RequestContext) (fetch : FetchFn)
    (args : List (String × JValue)) :
    (callToolBody (some ctx) fetch "attio_search_notes" args).1
      = (ctx.attioClient.searchNotes fetch (strArg args "query" "") (numArg args "limit" 50)).1 := by
  have h := resultMatch_fst (ctx.attioClient.searchNotes fetch (strArg args "query" "") (numArg args "limit" 50))
  unfold callToolBody getAttioClientE
  exact h

theorem searchNotes_fst (c : AttioClient) (fetch : FetchFn) (query : String) (limit : Int) :
    (c.searchNotes fetch query limit).1 = [notesReq c limit] := by
  unfold AttioClient.searchNotes
  split <;> rename_i heq <;> injection heq with h1 h2 <;> subst h1 <;> dsimp only <;>
    (try split) <;> (try split) <;> (try split) <;> rfl

/-- Claim C5: a search-tool call with no filters beyond limit issues a
single backend query carrying no filter predicate, only the bound limit;
the bound limit defaults to 25 for people, companies and deals and to 50
for notes, and any supplied numeric limit is passed through without an
upper bound. -/
theorem search_limit_only_queries :
    (∀ (client : AttioClient) (fetch : FetchFn) (args : List (String × JValue)),
      strArg? args "query" = none → strArg? args "email" = none →
      (handleCallTool (some { attioClient := client }) fetch "attio_search_people" args).1
        = [{ url := client.baseUrl ++ "/objects/people/records/query", method := "POST",
             authBearer := client.apiKey,
             body := some (jsonStringify (.obj [("limit", .num (numArg args "limit" 25))])) }])
    ∧ (∀ (client : AttioClient) (fetch : FetchFn) (args : List (String × JValue)),
      strArg? args "query" = none → strArg? args "domain" = none →
      (handleCallTool (some { attioClient := client }) fetch "attio_search_companies" args).1
        = [{ url := client.baseUrl ++ "/objects/companies/records/query", method := "POST",
             authBearer := client.apiKey,
             body := some (jsonStringify (.obj [("limit", .num (numArg args "limit" 25))])) }])
    ∧ (∀ (client : AttioClient) (fetch : FetchFn) (args : List (String × JValue)),
      strArg? args "name" = none → strArg? args "stage" = none →
      numArg? args "minValue" = none → numArg? args "maxValue" = none →
      (handleCallTool (some { attioClient := client }) fetch "attio_search_deals" args).1
        = [{ url := client.baseUrl ++ "/objects/deals/records/query", method := "POST",
             authBearer := client.apiKey,
             body := some (jsonStringify (.obj [("limit", .num (numArg args "limit" 25))])) }])
    ∧ (∀ (client : AttioClient) (fetch : FetchFn) (args : List (String × JValue)),
      (handleCallTool (some { attioClient := client }) fetch "attio_search_notes" args).1
        = [{ url := client.baseUrl ++ ("/notes?limit=" ++ toString (numArg args "limit" 50)),
             method := "GET", authBearer := client.apiKey, body := none }])
    ∧ (∀ (args : List (String × JValue)), List.lookup "limit" args = none →
        numArg args "limit" 25 = 25 ∧ numArg args "limit" 50 = 50) := by
  refine ⟨?_, ?_, ?_, ?_, ?_⟩
  · intro client fetch args hq he
    have hf : peopleFilters args = [] := by simp [peopleFilters, hq, he]
    rw [handleCallTool_fst, callToolBody_people_fst, hf]
    rfl
  · intro client fetch args hq hd
    have hf : companiesFilters args = [] := by simp [companiesFilters, hq, hd]
    rw [handleCallTool_fst, callToolBody_companies_fst, hf]
    rfl
  · intro client fetch args hn hs hmin hmax
    have hf : dealsFilters args = [] := by simp [dealsFilters, hn, hs, hmin, hmax]
    rw [handleCallTool_fst, callToolBody_deals_fst, hf]
    rfl
  · intro client fetch args
    rw [handleCallTool_fst, callToolBody_notes_fst, searchNotes_fst]
    rfl
  · intro args h
    constructor <;> simp [numArg, numArg?, h]

/-- Witness for C5, including an oversized limit of 999 passed through
unvalidated. -/
theorem search_limit_only_queries_witness :
    (strArg? ([] : List (String × JValue)) "query" = none)
    ∧ (handleCallTool (some { attioClient := AttioClient.mk "k" ATTIO_API_URL 0 }) badFetch
        "attio_search_people" []).1
      = [{ url := ATTIO_API_URL ++ "/objects/people/records/query", method := "POST",
           authBearer := "k",
           body := some (jsonStringify (.obj [("limit", .num 25)])) }]
    ∧ (handleCallTool (some { attioClient := AttioClient.mk "k" ATTIO_API_URL 0 }) badFetch
        "attio_search_deals" [("limit", JValue.num 999)]).1
      = [{ url := ATTIO_API_URL ++ "/objects/deals/records/query", method := "POST",
           authBearer := "k",
           body := some (jsonStringify (.obj [("limit", .num 999)])) }]
    ∧ (handleCallTool (some { attioClient := AttioClient.mk "k" ATTIO_API_URL 0 }) badFetch
        "attio_search_notes" []).1
      = [{ url := ATTIO_API_URL ++ ("/notes?limit=" ++ toString (50 : Int)), method := "GET",
           authBearer := "k", body := none }]
    ∧ (numArg [] "limit" 25 = 25 ∧ numArg [] "limit" 50 = 50) :=
  ⟨rfl,
   search_limit_only_queries.1 _ badFetch [] rfl rfl,
   search_limit_only_queries.2.2.1 _ badFetch [("limit", JValue.num 999)] rfl rfl rfl rfl,
   search_limit_only_queries.2.2.2.1 _ badFetch [],
   search_limit_only_queries.2.2.2.2 [] rfl⟩

theorem noteMatches_eq_pure (ql : String) (x : JValue) (hx : x ≠ JValue.null) :
    noteMatches ql x = .ok (noteMatchesP ql x) := by
  cases x with
  | null => exact absurd rfl hx
  | bool b => rfl
  | num n => rfl
  | str s => rfl
  | arr xs => rfl
  | obj fs => rfl

theorem filterEx_eq_pure (ql : String) (items : List JValue)
    (h : ∀ x ∈ items, x ≠ JValue.null) :
    filterEx (noteMatches ql) items = .ok (items.filter (noteMatchesP ql)) := by
  induction items with
  | nil => rfl
  | cons x xs ih =>
    have hx := h x (by simp)
    have hxs : ∀ y ∈ xs, y ≠ JValue.null := fun y hy => h y (by simp [hy])
    simp only [filterEx, noteMatches_eq_pure ql x hx, ih hxs, List.filter, bind, Except.bind, pure, Except.pure]
    cases hpx : noteMatchesP ql x <;> simp [hpx]

theorem searchNotes_ok_guard (c : AttioClient) (fetch : FetchFn) (query : String)
    (limit : Int) (fs : List (String × JValue)) (items : List JValue)
    (hok : (fetch (notesReq c limit)).ok = true)
    (hjson : (fetch (notesReq c limit)).json = .obj fs)
    (hdata : List.lookup "data" fs = some (.arr items)) :
    (c.searchNotes fetch query limit).2
      = if (query = "" || jsTrim query = "") = true then .ok (.obj fs)
        else match filterEx (noteMatches (jsToLower query)) items with
             | .error e => .error e
             | .ok filtered => .ok (.obj (setData fs filtered)) := by
  have h1 : c.makeRequest fetch ("/notes?limit=" ++ toString limit) "GET" none
      = ([notesReq c limit], .ok (.obj fs)) := by
    show ([notesReq c limit],
        if (fetch (notesReq c limit)).ok = true then Except.ok (fetch (notesReq c limit)).json
        else Except.error ("Attio API error: " ++ toString (fetch (notesReq c limit)).status
          ++ " " ++ (fetch (notesReq c limit)).statusText ++ " - "
          ++ (fetch (notesReq c limit)).errorText))
      = ([notesReq c limit], .ok (.obj fs))
    rw [hok, hjson]
    simp
  unfold AttioClient.searchNotes
  rw [h1]
  simp only [dataArrayOf, hdata]
  split <;> (try split) <;> rfl

/-- Claim C4: searchNotes issues exactly one unfiltered GET bounded by
limit; a blank query returns the fetched page unchanged; otherwise it
returns exactly the fetched notes matched by the case-insensitive
substring OR over title, plaintext content and markdown content, each kept
note unchanged, and the returned notes are a sublist of the fetched page,
so nothing beyond the first limit fetched records can be returned. -/
theorem search_notes_filtering :
    (∀ (c : AttioClient) (fetch : FetchFn) (query : String) (limit : Int),
      (c.searchNotes fetch query limit).1 = [notesReq c limit])
    ∧ (∀ (c : AttioClient) (fetch : FetchFn) (query : String) (limit : Int)
        (fs : List (String × JValue)) (items : List JValue),
        (fetch (notesReq c limit)).ok = true →
        (fetch (notesReq c limit)).json = .obj fs →
        List.lookup "data" fs = some (.arr items) →
        ((jsTrim query = "" →
           (c.searchNotes fetch query limit).2 = .ok (.obj fs))
         ∧ (jsTrim query ≠ "" → (∀ x ∈ items, x ≠ JValue.null) →
             (c.searchNotes fetch query limit).2
               = .ok (.obj (setData fs (items.filter (noteMatchesP (jsToLower query)))))
             ∧ (items.filter (noteMatchesP (jsToLower query))).Sublist items))) := by
  refine ⟨searchNotes_fst, ?_⟩
  intro c fetch query limit fs items hok hjson hdata
  have hg := searchNotes_ok_guard c fetch query limit fs items hok hjson hdata
  constructor
  · intro hq
    rw [hg]
    simp [hq]
  · intro hq hnn
    have hq0 : query ≠ "" := by
      intro h0
      exact hq (by rw [h0]; rfl)
    have hcond : (query = "" || jsTrim query = "") = false := by
      simp [hq0, hq]
    rw [hg, hcond]
    simp only [Bool.false_eq_true, if_false]
    rw [filterEx_eq_pure (jsToLower query) items hnn]
    exact ⟨rfl, List.filter_sublist items⟩

/-- Witness for C4: of three fetched notes only the second matches
needle (via its markdown body, case-insensitively) and exactly that note
is returned unchanged. -/
theorem search_notes_filtering_witness :
    jsTrim "needle" ≠ ""
    ∧ ((AttioClient.mk "k" ATTIO_API_URL 0).searchNotes
        (okFetch (.obj [("data", .arr [noteA, noteB, noteC])])) "needle" 50).2
      = .ok (.obj [("data", .arr [noteB])]) :=
  ⟨by decide, by
    have h := ((search_notes_filtering.2 (AttioClient.mk "k" ATTIO_API_URL 0)
        (okFetch (.obj [("data", .arr [noteA, noteB, noteC])])) "needle" 50
        [("data", .arr [noteA, noteB, noteC])] [noteA, noteB, noteC]
        rfl rfl rfl).2 (by decide)
        (by simp [noteA, noteB, noteC])).1
    exact h.trans (by rfl)⟩

/-- Claim C10 (counterexample): with a backend page whose data array
holds the single element null and a non-blank query, the filtering step of
searchNotes raises (a TypeError from reading title on null) instead of
returning normally, so the filter is not total over arbitrary note
shapes. -/
theorem note_filter_null_raises :
    ((AttioClient.mk "k" ATTIO_API_URL 0).searchNotes
        (okFetch (.obj [("data", .arr [JValue.null])])) "x" 50).2
      = .error "Cannot read properties of null (reading title)" := rfl

theorem strFieldMatch_none (ql : String) (fs : List (String × JValue)) (k : String)
    (h : strArg? fs k = none) : strFieldMatch ql (.obj fs) k = false := by
  unfold strArg? at h
  show (match List.lookup k fs with
        | some (JValue.str s) => strIncludes (jsToLower s) ql
        | _ => false) = false
  cases hl : List.lookup k fs with
  | none => rfl
  | some v =>
    rw [hl] at h
    cases v <;> simp_all

/-- Claim C10 (amended): a response that is not an object with an
array-valued data member is treated as the empty listing and searchNotes
returns data: [] normally; the filter callback is total over every
non-null note, agreeing with its pure reading; and an object note whose
title, content_plaintext and content_markdown members are absent or not
strings simply fails to match. A null element in the data array, however,
makes the filter raise a TypeError. -/
theorem search_notes_defensive :
    (∀ (c : AttioClient) (fetch : FetchFn) (query : String) (limit : Int),
      (fetch (notesReq c limit)).ok = true →
      dataArrayOf (fetch (notesReq c limit)).json = none →
      (c.searchNotes fetch query limit).2 = .ok (.obj [("data", .arr [])]))
    ∧ (∀ (ql : String) (x : JValue), x ≠ JValue.null →
        noteMatches ql x = .ok (noteMatchesP ql x))
    ∧ (∀ (ql : String) (fs : List (String × JValue)),
        strArg? fs "title" = none →
        strArg? fs "content_plaintext" = none →
        strArg? fs "content_markdown" = none →
        noteMatchesP ql (.obj fs) = false) := by
  refine ⟨?_, noteMatches_eq_pure, ?_⟩
  · intro c fetch query limit hok hnone
    have h1 : c.makeRequest fetch ("/notes?limit=" ++ toString limit) "GET" none
        = ([notesReq c limit], .ok (fetch (notesReq c limit)).json) := by
      show ([notesReq c limit],
          if (fetch (notesReq c limit)).ok = true then Except.ok (fetch (notesReq c limit)).json
          else Except.error ("Attio API error: " ++ toString (fetch (notesReq c limit)).status
            ++ " " ++ (fetch (notesReq c limit)).statusText ++ " - "
            ++ (fetch (notesReq c limit)).errorText))
        = ([notesReq c limit], .ok (fetch (notesReq c limit)).json)
      rw [hok]
      simp
    unfold AttioClient.searchNotes
    rw [h1]
    simp only [hnone]
    split <;> rfl
  · intro ql fs h1 h2 h3
    simp [noteMatchesP, strFieldMatch_none, h1, h2, h3]

/-- Witness for C10 at concrete malformed payloads. -/
theorem search_notes_defensive_witness :
    ((okFetch (.num 3)) (notesReq (AttioClient.mk "k" ATTIO_API_URL 0) 50)).ok = true
    ∧ dataArrayOf ((okFetch (.num 3)) (notesReq (AttioClient.mk "k" ATTIO_API_URL 0) 50)).json = none
    ∧ ((AttioClient.mk "k" ATTIO_API_URL 0).searchNotes (okFetch (.num 3)) "x" 50).2
        = .ok (.obj [("data", .arr [])])
    ∧ noteMatches "x" (.num 5) = .ok (noteMatchesP "x" (.num 5))
    ∧ noteMatchesP "x" (.obj [("title", .num 1)]) = false :=
  ⟨rfl, rfl,
   search_notes_defensive.1 (AttioClient.mk "k" ATTIO_API_URL 0) (okFetch (.num 3)) "x" 50 rfl rfl,
   search_notes_defensive.2.1 "x" (.num 5) (by simp),
   search_notes_defensive.2.2 "x" [("title", .num 1)] rfl rfl rfl⟩

/-- Claim C9: with no credential resolvable, a POST to /mcp, or to
/messages with a registered session, returns the state unchanged and the
default outcome: no scope entered, nothing dispatched, no backend request
and a silent response with no body; dually, whenever a body is dispatched
the store is a present context, on which the context lookup succeeds, so
getAttioClient can only fail outside every scope. -/
theorem missing_credential_short_circuit :
    (∀ (fetch : FetchFn) (st : ServerState) (env hdr : Option String)
        (body : Option ToolCallRequest),
      resolveApiKey env hdr = none →
      handleMcpPost fetch st env hdr body = (st, {}))
    ∧ (∀ (fetch : FetchFn) (st : ServerState) (sid : String) (h : Nat)
        (env hdr : Option String) (body : Option ToolCallRequest),
      List.lookup sid st.transports = some h →
      resolveApiKey env hdr = none →
      handleMessagesPost fetch st sid env hdr body = (st, {}))
    ∧ (∀ (fetch : FetchFn) (st : ServerState) (env hdr : Option String)
        (body : Option ToolCallRequest) (s : Option RequestContext) (r : ToolCallRequest),
      (handleMcpPost fetch st env hdr body).2.dispatched = some (s, r) →
      ∃ ctx, s = some ctx ∧ getAttioClientE s = .ok ctx.attioClient)
    ∧ (∀ (fetch : FetchFn) (st : ServerState) (sid : String)
        (env hdr : Option String) (body : Option ToolCallRequest)
        (s : Option RequestContext) (r : ToolCallRequest),
      (handleMessagesPost fetch st sid env hdr body).2.dispatched = some (s, r) →
      ∃ ctx, s = some ctx ∧ getAttioClientE s = .ok ctx.attioClient) := by
  refine ⟨?_, ?_, ?_, ?_⟩
  · intro fetch st env hdr body h
    simp [handleMcpPost, h]
  · intro fetch st sid hd env hdr body h1 h2
    simp [handleMessagesPost, h1, h2]
  · intro fetch st env hdr body s r h
    unfold handleMcpPost at h
    cases hres : resolveApiKey env hdr with
    | none => rw [hres] at h; simp at h
    | some key =>
      rw [hres] at h
      cases body with
      | none => simp at h
      | some r0 =>
        simp at h
        obtain ⟨hs, hr⟩ := h
        exact ⟨_, hs.symm, by rw [← hs]; rfl⟩
  · intro fetch st sid env hdr body s r h
    unfold handleMessagesPost at h
    cases hl : List.lookup sid st.transports with
    | none => rw [hl] at h; simp at h
    | some t =>
      rw [hl] at h
      cases hres : resolveApiKey env hdr with
      | none => rw [hres] at h; simp at h
      | some key =>
        rw [hres] at h
        cases body with
        | none => simp at h
        | some r0 =>
          simp at h
          obtain ⟨hs, hr⟩ := h
          exact ⟨_, hs.symm, by rw [← hs]; rfl⟩

/-- Witness for C9 with absent and empty credentials. -/
theorem missing_credential_short_circuit_witness :
    resolveApiKey none none = none
    ∧ handleMcpPost badFetch { transports := [], nextAlloc := 0 } none none
        (some { name := "attio_search_people", args := [] })
      = ({ transports := [], nextAlloc := 0 }, {})
    ∧ List.lookup "s1" ({ transports := [("s1", 7)], nextAlloc := 3 } : ServerState).transports = some 7
    ∧ handleMessagesPost badFetch { transports := [("s1", 7)], nextAlloc := 3 } "s1"
        (some "") (some "") (some { name := "attio_search_people", args := [] })
      = ({ transports := [("s1", 7)], nextAlloc := 3 }, {}) :=
  ⟨rfl,
   missing_credential_short_circuit.1 badFetch _ none none _ rfl,
   rfl,
   missing_credential_short_circuit.2.1 badFetch _ "s1" 7 (some "") (some "") _ rfl rfl⟩

theorem lookup_mapDelete (k : String) (m : List (String × Nat)) :
    List.lookup k (mapDelete k m) = none := by
  induction m with
  | nil => rfl
  | cons p t ih =>
    by_cases hp : p.1 = k
    · simpa [mapDelete, hp] using ih
    · have hbeq : (k == p.1) = false := by
        simp [Ne.symm hp]
      simp only [mapDelete, List.filter] at *
      simp [hp, List.lookup, hbeq, ih]
      exact fun a b _ hak h2 => hak h2.symm

theorem mapDelete_idem (k : String) (m : List (String × Nat)) :
    mapDelete k (mapDelete k m) = mapDelete k m := by
  simp [mapDelete, List.filter_filter]

/-- Claim C8: a POST to /messages whose sessionId is not registered gets
exactly the 404 Transport not found response with no scope entered, no
dispatch, no backend request and no state change (hence no adapter
constructed); closing a connection removes the session map entry and the
removal tolerates double removal; and a POST for a session that was opened
and then closed also gets the 404 outcome. -/
theorem messages_unknown_session :
    (∀ (fetch : FetchFn) (st : ServerState) (sid : String) (env hdr : Option String)
        (body : Option ToolCallRequest),
      List.lookup sid st.transports = none →
      handleMessagesPost fetch st sid env hdr body
        = (st, { response := transportNotFound }))
    ∧ (∀ (st : ServerState) (sid : String),
        (handleSseClose st sid).1.transports = mapDelete sid st.transports
        ∧ mapDelete sid (mapDelete sid st.transports) = mapDelete sid st.transports)
    ∧ (∀ (fetch : FetchFn) (st : ServerState) (sid : String) (h : Nat)
        (env hdr : Option String) (body : Option ToolCallRequest),
      handleMessagesPost fetch ((handleSseClose (handleSseGet st sid h).1 sid).1)
          sid env hdr body
        = ((handleSseClose (handleSseGet st sid h).1 sid).1,
           { response := transportNotFound })) := by
  refine ⟨?_, ?_, ?_⟩
  · intro fetch st sid env hdr body h
    simp [handleMessagesPost, h, transportNotFound]
  · intro st sid
    exact ⟨rfl, mapDelete_idem sid st.transports⟩
  · intro fetch st sid h env hdr body
    have hnone : List.lookup sid ((handleSseClose (handleSseGet st sid h).1 sid).1).transports = none :=
      lookup_mapDelete sid ((handleSseGet st sid h).1.transports)
    simp [handleMessagesPost, hnone, transportNotFound]

/-- Witness for C8 at a concrete state holding only session s1. -/
theorem messages_unknown_session_witness :
    List.lookup "nosuch" ({ transports := [("s1", 7)], nextAlloc := 0 } : ServerState).transports = none
    ∧ handleMessagesPost badFetch { transports := [("s1", 7)], nextAlloc := 0 } "nosuch"
        (some "k") none none
      = ({ transports := [("s1", 7)], nextAlloc := 0 },
         { response := transportNotFound }) :=
  ⟨rfl, messages_unknown_session.1 badFetch _ "nosuch" (some "k") none none rfl⟩

theorem scopeAllocIds_cons (o : PostOutcome) (outs : List PostOutcome) :
    scopeAllocIds (o :: outs)
      = o.scopes.map (fun c => c.attioClient.allocId) ++ scopeAllocIds outs := by
  simp [scopeAllocIds]

theorem step_char (fetch : FetchFn) (st : ServerState) (e : Event) :
    ((step fetch st e).2.scopes = [] ∧ (step fetch st e).1.nextAlloc = st.nextAlloc)
    ∨ (∃ ctx, (step fetch st e).2.scopes = [ctx]
        ∧ ctx.attioClient.allocId = st.nextAlloc
        ∧ (step fetch st e).1.nextAlloc = st.nextAlloc + 1) := by
  cases e with
  | mcpPost env hdr body =>
    cases hres : resolveApiKey env hdr with
    | none =>
      refine Or.inl ⟨?_, ?_⟩ <;> simp [step, handleMcpPost, hres]
    | some k =>
      refine Or.inr ⟨{ attioClient := { apiKey := k, allocId := st.nextAlloc } }, ?_, rfl, ?_⟩ <;>
        simp [step, handleMcpPost, hres]
  | sseOpen sid handle => exact Or.inl ⟨rfl, rfl⟩
  | msgPost sid env hdr body =>
    cases hl : List.lookup sid st.transports with
    | none =>
      refine Or.inl ⟨?_, ?_⟩ <;> simp [step, handleMessagesPost, hl]
    | some t =>
      cases hres : resolveApiKey env hdr with
      | none =>
        refine Or.inl ⟨?_, ?_⟩ <;> simp [step, handleMessagesPost, hl, hres]
      | some k =>
        refine Or.inr ⟨{ attioClient := { apiKey := k, allocId := st.nextAlloc } }, ?_, rfl, ?_⟩ <;>
          simp [step, handleMessagesPost, hl, hres]
  | sseClose sid => exact Or.inl ⟨rfl, rfl⟩

theorem runEvents_alloc_bounds (fetch : FetchFn) :
    ∀ (evs : List Event) (st : ServerState),
      st.nextAlloc ≤ (runEvents fetch st evs).1.nextAlloc
      ∧ ∀ id ∈ scopeAllocIds (runEvents fetch st evs).2,
          st.nextAlloc ≤ id ∧ id < (runEvents fetch st evs).1.nextAlloc := by
  intro evs
  induction evs with
  | nil => intro st; exact ⟨Nat.le_refl _, by simp [runEvents, scopeAllocIds]⟩
  | cons e es ih =>
    intro st
    have hstep := step_char fetch st e
    have hrec := ih (step fetch st e).1
    constructor
    · show st.nextAlloc ≤ (runEvents fetch (step fetch st e).1 es).1.nextAlloc
      rcases hstep with ⟨_, hn⟩ | ⟨ctx, _, _, hn⟩
      · exact hn ▸ hrec.1
      · have := hrec.1
        rw [hn] at this
        exact Nat.le_trans (Nat.le_succ _) this
    · intro id hid
      rw [show (runEvents fetch st (e :: es)).2
            = (step fetch st e).2 :: (runEvents fetch (step fetch st e).1 es).2 from rfl,
          scopeAllocIds_cons] at hid
      rcases List.mem_append.mp hid with hin | hin
      · rcases hstep with ⟨hs, hn⟩ | ⟨ctx, hs, hcid, hn⟩
        · rw [hs] at hin; simp at hin
        · rw [hs] at hin
          simp at hin
          subst hin
          refine ⟨Nat.le_of_eq hcid.symm, ?_⟩
          show ctx.attioClient.allocId < (runEvents fetch (step fetch st e).1 es).1.nextAlloc
          calc ctx.attioClient.allocId < st.nextAlloc + 1 := by rw [hcid]; exact Nat.lt_succ_self _
            _ = (step fetch st e).1.nextAlloc := hn.symm
            _ ≤ _ := hrec.1
      · have hb := hrec.2 id hin
        rcases hstep with ⟨_, hn⟩ | ⟨ctx, _, _, hn⟩
        · exact ⟨hn ▸ hb.1, hb.2⟩
        · have h1 := hb.1
          rw [hn] at h1
          exact ⟨Nat.le_trans (Nat.le_succ _) h1, hb.2⟩

theorem runEvents_scope_nodup (fetch : FetchFn) :
    ∀ (evs : List Event) (st : ServerState),
      (scopeAllocIds (runEvents fetch st evs).2).Nodup := by
  intro evs
  induction evs with
  | nil => intro st; simp [runEvents, scopeAllocIds]
  | cons e es ih =>
    intro st
    rw [show (runEvents fetch st (e :: es)).2
          = (step fetch st e).2 :: (runEvents fetch (step fetch st e).1 es).2 from rfl,
        scopeAllocIds_cons]
    rcases step_char fetch st e with ⟨hs, hn⟩ | ⟨ctx, hs, hcid, hn⟩
    · rw [hs]
      simpa using ih (step fetch st e).1
    · rw [hs]
      simp only [List.map_cons, List.map_nil, List.singleton_append, List.nodup_cons]
      refine ⟨?_, ih (step fetch st e).1⟩
      intro hmem
      have hb := (runEvents_alloc_bounds fetch es (step fetch st e).1).2 _ hmem
      rw [hn] at hb
      omega

/-- Claim C1: under both transports, a credentialed POST binds exactly one
request context whose AttioClient is constructed fresh for that inbound
request (its key is this request's resolved credential and its identity is
the allocation counter at this request, which the request then advances);
this holds per POST to /messages even within one long-lived session; a
dispatched ToolCallRequest always runs under exactly the single scope
context; and over any event trace the adapter identities bound by the
scopes are pairwise distinct, so no tool call ever observes another
request's adapter or credential. -/
theorem request_context_freshness :
    (∀ (fetch : FetchFn) (st : ServerState) (env hdr : Option String) (k : String)
        (body : Option ToolCallRequest),
      resolveApiKey env hdr = some k →
      (handleMcpPost fetch st env hdr body).2.scopes
        = [{ attioClient := { apiKey := k, baseUrl := ATTIO_API_URL, allocId := st.nextAlloc } }]
      ∧ (handleMcpPost fetch st env hdr body).1.nextAlloc = st.nextAlloc + 1)
    ∧ (∀ (fetch : FetchFn) (st : ServerState) (sid : String) (t : Nat)
        (env hdr : Option String) (k : String) (body : Option ToolCallRequest),
      List.lookup sid st.transports = some t →
      resolveApiKey env hdr = some k →
      (handleMessagesPost fetch st sid env hdr body).2.scopes
        = [{ attioClient := { apiKey := k, baseUrl := ATTIO_API_URL, allocId := st.nextAlloc } }]
      ∧ (handleMessagesPost fetch st sid env hdr body).1.nextAlloc = st.nextAlloc + 1)
    ∧ (∀ (fetch : FetchFn) (st : ServerState) (env hdr : Option String)
        (body : Option ToolCallRequest) (s : Option RequestContext) (r : ToolCallRequest),
      (handleMcpPost fetch st env hdr body).2.dispatched = some (s, r) →
      ∃ ctx, s = some ctx ∧ (handleMcpPost fetch st env hdr body).2.scopes = [ctx])
    ∧ (∀ (fetch : FetchFn) (st : ServerState) (sid : String) (env hdr : Option String)
        (body : Option ToolCallRequest) (s : Option RequestContext) (r : ToolCallRequest),
      (handleMessagesPost fetch st sid env hdr body).2.dispatched = some (s, r) →
      ∃ ctx, s = some ctx ∧ (handleMessagesPost fetch st sid env hdr body).2.scopes = [ctx])
    ∧ (∀ (fetch : FetchFn) (st : ServerState) (evs : List Event),
      (scopeAllocIds (runEvents fetch st evs).2).Nodup) := by
  refine ⟨?_, ?_, ?_, ?_, fun fetch st evs => runEvents_scope_nodup fetch evs st⟩
  · intro fetch st env hdr k body h
    constructor <;> simp [handleMcpPost, h]
  · intro fetch st sid t env hdr k body hl h
    constructor <;> simp [handleMessagesPost, hl, h]
  · intro fetch st env hdr body s r h
    unfold handleMcpPost at h
    cases hres : resolveApiKey env hdr with
    | none => (try rw [hres] at h); simp at h
    | some key =>
      (try rw [hres] at h)
      cases body with
      | none => simp at h
      | some r0 =>
        simp at h
        refine ⟨_, h.1.symm, ?_⟩
        simp [handleMcpPost, hres]
  · intro fetch st sid env hdr body s r h
    unfold handleMessagesPost at h
    cases hl : List.lookup sid st.transports with
    | none => (try rw [hl] at h); simp at h
    | some t =>
      (try rw [hl] at h)
      cases hres : resolveApiKey env hdr with
      | none => (try rw [hres] at h); simp at h
      | some key =>
        (try rw [hres] at h)
        cases body with
        | none => simp at h
        | some r0 =>
          simp at h
          refine ⟨_, h.1.symm, ?_⟩
          simp [handleMessagesPost, hl, hres]

/-- Witness for C1 at concrete requests and states. -/
theorem request_context_freshness_witness :
    resolveApiKey (some "k1") none = some "k1"
    ∧ (handleMcpPost badFetch { transports := [], nextAlloc := 5 } (some "k1") none
        (some { name := "attio_search_people", args := [] })).2.scopes
      = [{ attioClient := { apiKey := "k1", baseUrl := ATTIO_API_URL, allocId := 5 } }]
    ∧ (handleMcpPost badFetch { transports := [], nextAlloc := 5 } (some "k1") none
        (some { name := "attio_search_people", args := [] })).1.nextAlloc = 6
    ∧ List.lookup "s1" ({ transports := [("s1", 7)], nextAlloc := 5 } : ServerState).transports = some 7
    ∧ (handleMessagesPost badFetch { transports := [("s1", 7)], nextAlloc := 5 } "s1"
        none (some "k2") (some { name := "attio_search_people", args := [] })).2.scopes
      = [{ attioClient := { apiKey := "k2", baseUrl := ATTIO_API_URL, allocId := 5 } }]
    ∧ (handleMcpPost badFetch { transports := [], nextAlloc := 5 } (some "k1") none
        (some { name := "attio_search_people", args := [] })).2.dispatched
      = some (some { attioClient := { apiKey := "k1", baseUrl := ATTIO_API_URL, allocId := 5 } },
              { name := "attio_search_people", args := [] })
    ∧ (∃ ctx, (some { attioClient := { apiKey := "k1", baseUrl := ATTIO_API_URL, allocId := 5 } }
          : Option RequestContext) = some ctx
        ∧ (handleMcpPost badFetch { transports := [], nextAlloc := 5 } (some "k1") none
            (some { name := "attio_search_people", args := [] })).2.scopes = [ctx]) :=
  ⟨rfl,
   (request_context_freshness.1 badFetch { transports := [], nextAlloc := 5 } (some "k1") none "k1"
     (some { name := "attio_search_people", args := [] }) rfl).1,
   (request_context_freshness.1 badFetch { transports := [], nextAlloc := 5 } (some "k1") none "k1"
     (some { name := "attio_search_people", args := [] }) rfl).2,
   rfl,
   (request_context_freshness.2.1 badFetch { transports := [("s1", 7)], nextAlloc := 5 } "s1" 7
     none (some "k2") "k2" (some { name := "attio_search_people", args := [] }) rfl rfl).1,
   rfl,
   request_context_freshness.2.2.1 badFetch { transports := [], nextAlloc := 5 } (some "k1") none
     (some { name := "attio_search_people", args := [] }) _ _ rfl⟩
